import Mathlib

/-!
Verification development for `mender-bootloader-validation.py`: a shallow
embedding of the script's configuration loading, persistent state store,
root-partition probing, bootloader-environment helpers and the module-level
evaluate / advance / prepare / finalize pipeline, together with theorems
settling the specification claims.

External effects (subprocess calls, file system, reboot) are modelled by a
`World` oracle recording the outcome each command would have, and by an
explicit `Act` trace of the externally visible commands the run issues.
-/

/-- Python `str(x)` as used in the script's f-strings, where `x` is either a
string or `None` (`None` prints as `"None"`). -/
def pyShow : Option String → String
  | none => "None"
  | some s => s

/-- Python `\s` on ASCII: the whitespace characters recognised by the regex
module and by `str.strip`. -/
def isPySpace (c : Char) : Bool :=
  c = ' ' || c = '\t' || c = '\n' || c = '\r' || c = '\x0b' || c = '\x0c'

/-- Strip `\s*` from both ends of a character list. -/
def trimChars (l : List Char) : List Char :=
  ((l.dropWhile isPySpace).reverse.dropWhile isPySpace).reverse

/-- Split a character list at the first `'='`, returning the parts before and
after it, or `none` when no `'='` occurs. -/
def splitFirstEq : List Char → Option (List Char × List Char)
  | [] => none
  | c :: rest =>
    if c = '=' then some ([], rest)
    else (splitFirstEq rest).map (fun p => (c :: p.1, p.2))

/-- Model of `dict(re.findall(r"^\s*(.*?)\s*=\s*(.*?)\s*$", value))` from
`assert_env_variable`.  The pattern is anchored and compiled without
`re.MULTILINE`, so on the (already `strip()`-ed) command output it produces at
most one key/value pair: the text before the first `'='` and the text after
it, both whitespace-trimmed, and neither group can span a newline.  We model
the newline-free outputs exactly (each evaluation in this file is at such an
output) and conservatively produce no pair when an interior newline is
present, which agrees with the regex whenever non-whitespace text precedes
the newline, as in real multi-line tool output. -/
def parseEnvOutput (s : String) : List (String × String) :=
  if s.data.contains '\n' then []
  else
    match splitFirstEq s.data with
    | none => []
    | some p => [(String.mk (trimChars p.1), String.mk (trimChars p.2))]

/-- Python `dict` lookup returning `none` when the key is absent
(`dict.get`).  Association lists in this development keep at most one binding
per key, as Python dicts do. -/
def getKV {α : Type} : List (String × α) → String → Option α
  | [], _ => none
  | (k2, v) :: rest, k => if k2 == k then some v else getKV rest k

/-- Python `d[k] = v`: replace the binding in place, or append a new one. -/
def setKV {α : Type} : List (String × α) → String → α → List (String × α)
  | [], k, v => [(k, v)]
  | (k2, v2) :: rest, k, v =>
    if k2 == k then (k, v) :: rest else (k2, v2) :: setKV rest k v

/-- Python `d.update(other)`: every key of `other` is written into `d`, later
entries overriding earlier ones. -/
def dict_update {α : Type} (d : List (String × α)) (other : List (String × α)) :
    List (String × α) :=
  other.foldl (fun acc kv => setKV acc kv.1 kv.2) d

/-- Model of the inner `read_file_int` of `PersistentState.__init__`: merge one config
file's JSON object into the accumulated config via `self.config.update`; a
missing or unparseable file (`none`) contributes nothing. -/
def read_file_int (config : List (String × String))
    (fileContent : Option (List (String × String))) : List (String × String) :=
  match fileContent with
  | none => config
  | some kvs => dict_update config kvs

/-- The two layered `read_file_int` calls of `PersistentState.__init__`:
first `etc/mender/mender.conf`, then `var/lib/mender/mender.conf`. -/
def load_config (clientFile deviceFile : Option (List (String × String))) :
    List (String × String) :=
  read_file_int (read_file_int [] clientFile) deviceFile

-- config keys
def ROOTFS_A_KEY : String := "RootfsPartA"
def ROOTFS_B_KEY : String := "RootfsPartB"
-- state keys
def PART_NUMBER_A_KEY : String := "PartitionNumberA"
def PART_NUMBER_B_KEY : String := "PartitionNumberB"
def SET_CMD_KEY : String := "SetCmd"
def PRINT_CMD_KEY : String := "PrintCmd"
def EXPECTED_ROOT_KEY : String := "ExpectedRoot"
def VALIDATION_STEP_KEY : String := "step"

-- the various steps
def STEP_NONE : String := "none"
def STEP_INIT : String := "init"
def STEP_TEST_SWITCH : String := "test_switch"
def STEP_TEST_UPDATE : String := "test_update"
def STEP_TEST_ROLLBACK : String := "test_rollback"
def STEP_END : String := "end"

-- bootloader backends
def SET_CMD_UBOOT : String := "fw_setenv"
def PRINT_CMD_UBOOT : String := "fw_printenv"
def SET_CMD_GRUB : String := "grub-mender-grubenv-set"
def PRINT_CMD_GRUB : String := "grub-mender-grubenv-print"

-- root identification results
def CURRENT_ROOT_A : String := "root_a"
def CURRENT_ROOT_B : String := "root_b"
def CURRENT_ROOT_UNDEFINED : String := "root_undefined"

-- bootloader environment variable names
def ENV_KEY_BOOT_PART : String := "mender_boot_part"
def ENV_KEY_BOOT_PART_HEX : String := "mender_boot_part_hex"
def ENV_KEY_BOOTCOUNT : String := "bootcount"
def ENV_KEY_UPGRADE : String := "upgrade_available"

/-- The `PersistentState` object: the loaded configuration dict, the
in-memory state dict (values may be JSON `null`, hence `Option String`), and
the on-disk copy of the state file (`none` when the file does not exist). -/
structure PersistentState where
  config : List (String × String)
  state : List (String × Option String)
  disk : Option (List (String × Option String))

/-- Model of `PersistentState._get_state` / `self.state.get(key)`: absent keys and
stored `null`s both read back as `None`. -/
def get_state (ps : PersistentState) (k : String) : Option String :=
  (getKV ps.state k).join

/-- Model of `PersistentState._set_state`: mutate the in-memory dict, then
`_save_state` immediately rewrites the whole record to the state file. -/
def set_state (ps : PersistentState) (k : String) (v : Option String) :
    PersistentState :=
  let m := setKV ps.state k v
  { ps with state := m, disk := some m }

def get_root_part_device_a (ps : PersistentState) : Option String :=
  get_state ps ROOTFS_A_KEY

def get_root_part_device_b (ps : PersistentState) : Option String :=
  get_state ps ROOTFS_B_KEY

def get_root_part_number_a (ps : PersistentState) : Option String :=
  get_state ps PART_NUMBER_A_KEY

def get_root_part_number_b (ps : PersistentState) : Option String :=
  get_state ps PART_NUMBER_B_KEY

def get_step (ps : PersistentState) : Option String :=
  get_state ps VALIDATION_STEP_KEY

def get_expected_root (ps : PersistentState) : Option String :=
  get_state ps EXPECTED_ROOT_KEY

def set_expected_root (ps : PersistentState) (value : String) : PersistentState :=
  set_state ps EXPECTED_ROOT_KEY (some value)

def set_step (ps : PersistentState) (step : String) : PersistentState :=
  set_state ps VALIDATION_STEP_KEY (some step)

/-- Model of `PersistentState.next_step`: chained comparisons of the current step
against the step constants; an unrecognised value (including a missing step,
Python `None`) raises.  The function returns `self.get_step()` re-read after
the transition. -/
def next_step (ps : PersistentState) : Except Unit (PersistentState × Option String) :=
  let s := get_step ps
  if s == some STEP_NONE then
    let ps2 := set_step ps STEP_INIT
    .ok (ps2, get_step ps2)
  else if s == some STEP_INIT then
    let ps2 := set_step ps STEP_TEST_SWITCH
    .ok (ps2, get_step ps2)
  else if s == some STEP_TEST_SWITCH then
    let ps2 := set_step ps STEP_TEST_UPDATE
    .ok (ps2, get_step ps2)
  else if s == some STEP_TEST_UPDATE then
    let ps2 := set_step ps STEP_TEST_ROLLBACK
    .ok (ps2, get_step ps2)
  else if s == some STEP_TEST_ROLLBACK then
    let ps2 := set_step ps STEP_END
    .ok (ps2, get_step ps2)
  else if s == some STEP_END then
    .ok (ps, get_step ps)
  else
    .error ()

/-- Model of `PersistentState.clean`: `os.remove(self.filename)`. -/
def clean (ps : PersistentState) : PersistentState :=
  { ps with disk := none }

/-- Oracle for the script's external world: the outcome every subprocess /
file-system operation would have on this run.  `setOk name value` is the exit
status of `[set_cmd, name, value]`; `printOut name` is the stripped stdout of
`[print_cmd, name]` (or `none` on failure); `rootProbe`, `aProbe`, `bProbe`
are the stripped outputs of the three `stat` device-identifier probes in
`identify_mounted_root` (`none` when the command fails, e.g. a missing or
`None` device path); `whichOk` is `check_for_command`; `tmpdir` is the name
`tempfile.TemporaryDirectory` produces. -/
structure World where
  setOk : String → String → Bool
  printOut : String → Option String
  whichOk : String → Bool
  rootProbe : Option String
  aProbe : Option String
  bProbe : Option String
  mountOk : Bool
  renameOk : Bool
  umountOk : Bool
  osReleaseOk : Bool
  tmpdir : String

/-- Externally visible commands a run issues, in order. -/
inductive Act where
  | setEnvA (name value : String)
  | setReasonA (reason : String)
  | mountA (dev : Option String)
  | renameA
  | umountA
  | rebootA
  | disableServiceA
  deriving DecidableEq, BEq, Repr

/-- Model of `identify_mounted_root`: compare the stripped `stat` output for `/`
against the outputs for the two configured partition devices.  Python
compares the raw `run_command_get_output` results, where a failed probe is
`None` — and `None == None` holds. -/
def identify_mounted_root (w : World) : String :=
  let root := w.rootProbe
  let a := w.aProbe
  let b := w.bProbe
  if root == a then CURRENT_ROOT_A
  else if root == b then CURRENT_ROOT_B
  else CURRENT_ROOT_UNDEFINED

/-- Model of `set_env_variable`: run `[set_cmd, variable_name, value]`. -/
def set_env_variable (w : World) (variable_name : String) (value : String) : Bool :=
  w.setOk variable_name value

/-- Model of `assert_env_variable`: read the print command's output, parse it with the
anchored regex, then index the resulting dict with `vdict[variable_name]` —
which raises `KeyError` (modelled as `.error ()`) when the name is absent
from the parsed output.  The `is None` guard in the source is unreachable for
present keys, whose values are always strings. -/
def assert_env_variable (w : World) (variable_name : String) (expect : String) :
    Except Unit Bool :=
  match w.printOut variable_name with
  | none => .ok false
  | some value =>
    let vdict := parseEnvOutput value
    match getKV vdict variable_name with
    | none => .error ()
    | some v => .ok (v == expect)

/-- The dict `get_inactive_bootpart_info` builds: partition number, device
path and identity of the partition that is not currently mounted. -/
structure InactiveInfo where
  number : Option String
  device : Option String
  ident : String
  deriving DecidableEq, BEq, Repr

/-- Model of `get_inactive_bootpart_info`: `None` unless the current root is exactly
`root_a` or `root_b`. -/
def get_inactive_bootpart_info (ps : PersistentState) (current : String) :
    Option InactiveInfo :=
  if current == CURRENT_ROOT_A then
    some ⟨get_root_part_number_b ps, get_root_part_device_b ps, CURRENT_ROOT_B⟩
  else if current == CURRENT_ROOT_B then
    some ⟨get_root_part_number_a ps, get_root_part_device_a ps, CURRENT_ROOT_A⟩
  else none

/-- Model of `set_mender_bootpart`: set `mender_boot_part`, then (only if that
succeeded) `mender_boot_part_hex`, both to `str(num)`; returns whether both
writes succeeded, together with the commands actually issued. -/
def set_mender_bootpart (w : World) (num : Option String) : Bool × List Act :=
  if !set_env_variable w ENV_KEY_BOOT_PART (pyShow num) then
    (false, [Act.setEnvA ENV_KEY_BOOT_PART (pyShow num)])
  else if !set_env_variable w ENV_KEY_BOOT_PART_HEX (pyShow num) then
    (false, [Act.setEnvA ENV_KEY_BOOT_PART (pyShow num),
             Act.setEnvA ENV_KEY_BOOT_PART_HEX (pyShow num)])
  else
    (true, [Act.setEnvA ENV_KEY_BOOT_PART (pyShow num),
            Act.setEnvA ENV_KEY_BOOT_PART_HEX (pyShow num)])

/-- Model of the inner `extract_part_number` of `create_initial_state`:
`re.search(r'\d+$', part)`, the trailing run of digits or `None`. -/
def extract_part_number (part : String) : Option String :=
  let ds := ((part.data.reverse.takeWhile fun c => c.isDigit).reverse)
  if ds.isEmpty then none else some (String.mk ds)

/-- Model of `PersistentState.create_initial_state`: choose the bootloader backend (a
U-Boot style print command on the PATH selects the U-Boot pair, else GRUB),
extract the partition numbers, and persist the initial record key by key,
ending on step `none`.  The constructor has already established that both
rootfs config keys are present. -/
def create_initial_state (w : World) (ps : PersistentState) : PersistentState :=
  let rfs_a := getKV ps.config ROOTFS_A_KEY
  let rfs_b := getKV ps.config ROOTFS_B_KEY
  let cmds : String × String :=
    if w.whichOk PRINT_CMD_UBOOT then (SET_CMD_UBOOT, PRINT_CMD_UBOOT)
    else (SET_CMD_GRUB, PRINT_CMD_GRUB)
  let part_num_a := rfs_a.bind extract_part_number
  let part_num_b := rfs_b.bind extract_part_number
  let ps := set_state ps SET_CMD_KEY (some cmds.1)
  let ps := set_state ps PRINT_CMD_KEY (some cmds.2)
  let ps := set_state ps ROOTFS_A_KEY rfs_a
  let ps := set_state ps ROOTFS_B_KEY rfs_b
  let ps := set_state ps PART_NUMBER_A_KEY part_num_a
  let ps := set_state ps PART_NUMBER_B_KEY part_num_b
  set_step ps STEP_NONE

/-- Model of `fail_reason = r; logger.info(fail_reason); keep_going = False`, the
script's failure idiom: the previous reason is overwritten, the trace keeps
everything already issued and records the new reason. -/
def failStep (r : String) (acc : Bool × Option String × List Act) :
    Bool × Option String × List Act :=
  (false, some r, acc.2.2 ++ [Act.setReasonA r])

/-- First-stage evaluation of a completed `test_switch` step (lines 354-362):
success iff the recorded expected root equals the probed current root. -/
def eval_test_switch (expected : Option String) (current_root : String) :
    Bool × Option String × List Act :=
  if expected == some current_root then (true, none, [])
  else failStep "switch test failed" (true, none, [])

/-- First-stage evaluation of a completed `test_update` step (lines 363-390):
expected-root check, the two environment assertions (which run even after an
earlier check failed, and can raise `KeyError`), then the two cleanup writes,
each gated on `keep_going`. -/
def eval_test_update (w : World) (expected : Option String) (current_root : String) :
    Except Unit (Bool × Option String × List Act) :=
  match assert_env_variable w ENV_KEY_BOOTCOUNT "1" with
  | .error e => .error e
  | .ok a1 =>
    match assert_env_variable w ENV_KEY_UPGRADE "1" with
    | .error e => .error e
    | .ok a2 =>
      let s0 : Bool × Option String × List Act :=
        if expected == some current_root then (true, none, [])
        else failStep ("update test did not match expected root: " ++ pyShow expected)
          (true, none, [])
      let s1 := if a1 then s0 else failStep "failed bootcount assertion" s0
      let s2 := if a2 then s1 else failStep "failed upgrade_available assertion" s1
      let s3 :=
        if s2.1 then
          if set_env_variable w ENV_KEY_BOOTCOUNT "0" then
            (s2.1, s2.2.1, s2.2.2 ++ [Act.setEnvA ENV_KEY_BOOTCOUNT "0"])
          else failStep "failed to set bootcount"
            (s2.1, s2.2.1, s2.2.2 ++ [Act.setEnvA ENV_KEY_BOOTCOUNT "0"])
        else s2
      let s4 :=
        if s3.1 then
          if set_env_variable w ENV_KEY_UPGRADE "0" then
            (s3.1, s3.2.1, s3.2.2 ++ [Act.setEnvA ENV_KEY_UPGRADE "0"])
          else failStep "failed to set upgrade_available"
            (s3.1, s3.2.1, s3.2.2 ++ [Act.setEnvA ENV_KEY_UPGRADE "0"])
        else s3
      .ok s4

/-- First-stage evaluation of a completed `test_rollback` step (lines
391-414): upgrade flag must read `0`, the current root must equal the
recorded (originally active) expected root, then the two cleanup writes,
each gated on `keep_going`. -/
def eval_test_rollback (w : World) (expected : Option String) (current_root : String) :
    Except Unit (Bool × Option String × List Act) :=
  match assert_env_variable w ENV_KEY_UPGRADE "0" with
  | .error e => .error e
  | .ok a1 =>
    let s0 : Bool × Option String × List Act :=
      if a1 then (true, none, [])
      else failStep "failed upgrade_available assertion" (true, none, [])
    let s1 :=
      if expected == some current_root then s0
      else failStep ("rollback test did not match expected root: " ++ pyShow expected) s0
    let s2 :=
      if s1.1 then
        if set_env_variable w ENV_KEY_BOOTCOUNT "0" then
          (s1.1, s1.2.1, s1.2.2 ++ [Act.setEnvA ENV_KEY_BOOTCOUNT "0"])
        else failStep "failed to set bootcount"
          (s1.1, s1.2.1, s1.2.2 ++ [Act.setEnvA ENV_KEY_BOOTCOUNT "0"])
      else s1
    let s3 :=
      if s2.1 then
        if set_env_variable w ENV_KEY_UPGRADE "0" then
          (s2.1, s2.2.1, s2.2.2 ++ [Act.setEnvA ENV_KEY_UPGRADE "0"])
        else failStep "failed to set upgrade_available"
          (s2.1, s2.2.1, s2.2.2 ++ [Act.setEnvA ENV_KEY_UPGRADE "0"])
      else s2
    .ok s3

/-- The whole first stage (lines 345-415): dispatch on the persisted step.  A
fresh state (`s == None`) triggers `create_initial_state`; `init`, `end` and
anything else evaluate nothing. -/
def first_stage (w : World) (ps : PersistentState) (current_root : String) :
    Except Unit (PersistentState × Bool × Option String × List Act) :=
  match get_step ps with
  | none => .ok (create_initial_state w ps, true, none, [])
  | some s =>
    if s == STEP_TEST_SWITCH then
      .ok (ps, eval_test_switch (get_expected_root ps) current_root)
    else if s == STEP_TEST_UPDATE then
      match eval_test_update w (get_expected_root ps) current_root with
      | .error e => .error e
      | .ok x => .ok (ps, x)
    else if s == STEP_TEST_ROLLBACK then
      match eval_test_rollback w (get_expected_root ps) current_root with
      | .error e => .error e
      | .ok x => .ok (ps, x)
    else .ok (ps, true, none, [])

/-- Preparation of the `test_switch` step (lines 433-445).  Note the source
has no `keep_going` guard here: the bootloader write and the
`expectedRoot` update run even when an earlier phase already failed. -/
def prep_test_switch (w : World) (ps : PersistentState) (kg : Bool)
    (fr : Option String) (current_root : String) :
    PersistentState × Bool × Option String × List Act :=
  match get_inactive_bootpart_info ps current_root with
  | some inactive =>
    match set_mender_bootpart w inactive.number with
    | (true, tb) => (set_expected_root ps inactive.ident, kg, fr, tb)
    | (false, tb) =>
      (ps, false, some ("failed to set boot partition " ++ inactive.ident),
       tb ++ [Act.setReasonA ("failed to set boot partition " ++ inactive.ident)])
  | none =>
    (ps, false, some "could not identify partition numbers for switch, aborting",
     [Act.setReasonA "could not identify partition numbers for switch, aborting"])

/-- Preparation of the `test_update` step (lines 446-468).  The two initial
environment writes record their failure reasons as literal, non-interpolated
strings (the source lines lack the `f` prefix); afterwards the combined
`keep_going and inactive is not None` test sends every already-failed run
into the `else` branch, overwriting the recorded reason. -/
def prep_test_update (w : World) (ps : PersistentState) (kg : Bool)
    (fr : Option String) (current_root : String) :
    PersistentState × Bool × Option String × List Act :=
  let s1 : Bool × Option String × List Act :=
    if kg then
      if set_env_variable w ENV_KEY_BOOTCOUNT "0" then
        (kg, fr, [Act.setEnvA ENV_KEY_BOOTCOUNT "0"])
      else failStep "failed to set \x7bENV_KEY_BOOTCOUNT\x7d"
        (kg, fr, [Act.setEnvA ENV_KEY_BOOTCOUNT "0"])
    else (kg, fr, [])
  let s2 :=
    if s1.1 then
      if set_env_variable w ENV_KEY_UPGRADE "1" then
        (s1.1, s1.2.1, s1.2.2 ++ [Act.setEnvA ENV_KEY_UPGRADE "1"])
      else failStep "failed to set \x7bENV_KEY_UPGRADE\x7d"
        (s1.1, s1.2.1, s1.2.2 ++ [Act.setEnvA ENV_KEY_UPGRADE "1"])
    else s1
  match get_inactive_bootpart_info ps current_root with
  | some inactive =>
    if s2.1 then
      match set_mender_bootpart w inactive.number with
      | (true, tb) => (set_expected_root ps inactive.ident, s2.1, s2.2.1, s2.2.2 ++ tb)
      | (false, tb) =>
        (ps, false, some ("failed to set boot partition " ++ inactive.ident),
         s2.2.2 ++ tb ++ [Act.setReasonA ("failed to set boot partition " ++ inactive.ident)])
    else
      (ps, false, some "could not identify partition numbers for update, aborting",
       s2.2.2 ++ [Act.setReasonA "could not identify partition numbers for update, aborting"])
  | none =>
    (ps, false, some "could not identify partition numbers for update, aborting",
     s2.2.2 ++ [Act.setReasonA "could not identify partition numbers for update, aborting"])

/-- Preparation of the `test_rollback` step (lines 469-512): the fault
injection procedure.  Nothing at all happens unless `keep_going` holds and
the inactive partition was identified; inside, the mount runs first and each
later sub-step (rename, unmount, the two environment writes, the boot-part
selection, the `expectedRoot` record) is gated on the success of all earlier
ones. -/
def prep_test_rollback (w : World) (ps : PersistentState) (kg : Bool)
    (fr : Option String) (current_root : String) :
    PersistentState × Bool × Option String × List Act :=
  match get_inactive_bootpart_info ps current_root with
  | none => (ps, kg, fr, [])
  | some inactive =>
    if kg then
      if !w.mountOk then
        (ps, false,
         some ("failed to mount " ++ pyShow inactive.device ++ " to " ++ w.tmpdir ++ ", aborting"),
         [Act.mountA inactive.device,
          Act.setReasonA ("failed to mount " ++ pyShow inactive.device ++ " to " ++ w.tmpdir ++ ", aborting")])
      else
        let t0 : List Act := [Act.mountA inactive.device]
        if !w.renameOk then
          (ps, false, some ("failed to rename boot in " ++ w.tmpdir ++ ", aborting"),
           t0 ++ [Act.renameA,
                  Act.setReasonA ("failed to rename boot in " ++ w.tmpdir ++ ", aborting")])
        else
          let t1 := t0 ++ [Act.renameA]
          if !w.umountOk then
            (ps, false, some ("failed to unmount " ++ w.tmpdir),
             t1 ++ [Act.umountA, Act.setReasonA ("failed to unmount " ++ w.tmpdir)])
          else
            let t2 := t1 ++ [Act.umountA]
            if !set_env_variable w ENV_KEY_BOOTCOUNT "0" then
              (ps, false, some "failed to set bootcount",
               t2 ++ [Act.setEnvA ENV_KEY_BOOTCOUNT "0", Act.setReasonA "failed to set bootcount"])
            else
              let t3 := t2 ++ [Act.setEnvA ENV_KEY_BOOTCOUNT "0"]
              if !set_env_variable w ENV_KEY_UPGRADE "1" then
                (ps, false, some "failed to set upgrade_available",
                 t3 ++ [Act.setEnvA ENV_KEY_UPGRADE "1", Act.setReasonA "failed to set upgrade_available"])
              else
                let t4 := t3 ++ [Act.setEnvA ENV_KEY_UPGRADE "1"]
                match set_mender_bootpart w inactive.number with
                | (false, tb) =>
                  (ps, false, some ("failed to set boot partition " ++ inactive.ident),
                   t4 ++ tb ++ [Act.setReasonA ("failed to set boot partition " ++ inactive.ident)])
                | (true, tb) =>
                  (set_expected_root ps current_root, kg, fr, t4 ++ tb)
    else (ps, kg, fr, [])

/-- The whole second stage (lines 427-516): dispatch on the (possibly just
advanced) step.  `init` only logs diagnostics, but its `open` of
`/etc/os-release` can raise; `end` clears `keep_going`. -/
def second_stage (w : World) (ps : PersistentState) (kg : Bool)
    (fr : Option String) (s : Option String) (current_root : String) :
    Except Unit (PersistentState × Bool × Option String × List Act) :=
  if s == some STEP_INIT then
    if w.osReleaseOk then .ok (ps, kg, fr, []) else .error ()
  else if s == some STEP_TEST_SWITCH then
    .ok (prep_test_switch w ps kg fr current_root)
  else if s == some STEP_TEST_UPDATE then
    .ok (prep_test_update w ps kg fr current_root)
  else if s == some STEP_TEST_ROLLBACK then
    .ok (prep_test_rollback w ps kg fr current_root)
  else if s == some STEP_END then
    .ok (ps, false, fr, [])
  else .ok (ps, kg, fr, [])

/-- Everything one invocation of the script does after constructing
`PersistentState`, observable from outside. -/
structure RunResult where
  ps : PersistentState
  rebooted : Bool
  serviceDisabled : Bool
  cleaned : Bool
  verdict : Option String
  fail_reason : Option String
  advanced : Bool
  trace : List Act

/-- The module-level pipeline (lines 345-530): probe the mounted root,
evaluate the previous step, advance only when evaluation kept going (note
that when it did not, the second stage still runs on the *old* step value),
prepare, then either reboot or finalize (disable the service, delete the
state file, log the verdict). -/
def run_script (w : World) (ps0 : PersistentState) : Except Unit RunResult :=
  let current_root := identify_mounted_root w
  let s0 := get_step ps0
  match first_stage w ps0 current_root with
  | .error e => .error e
  | .ok (ps1, kg1, fr1, tr1) =>
    match (if kg1 then next_step ps1
           else (Except.ok (ps1, s0) : Except Unit (PersistentState × Option String))) with
    | .error e => .error e
    | .ok (ps2, s2) =>
      match second_stage w ps2 kg1 fr1 s2 current_root with
      | .error e => .error e
      | .ok (ps3, kg3, fr3, tr3) =>
        if kg3 then
          .ok { ps := ps3, rebooted := true, serviceDisabled := false, cleaned := false,
                verdict := none, fail_reason := fr3, advanced := kg1,
                trace := tr1 ++ tr3 ++ [Act.rebootA] }
        else
          .ok { ps := clean ps3, rebooted := false, serviceDisabled := true, cleaned := true,
                verdict := some (match fr3 with
                  | none => "BOOTLOADER VALIDATION: SUCCESS"
                  | some r => "BOOTLOADER VALIDATION: FAILURE - " ++ r),
                fail_reason := fr3, advanced := kg1,
                trace := tr1 ++ tr3 ++ [Act.disableServiceA] }

/-- A world in which every external command succeeds, no environment variable
prints anything, the U-Boot backend is absent and all probes fail.  Concrete
scenarios below override individual fields. -/
def wBase : World where
  setOk := fun _ _ => true
  printOut := fun _ => none
  whichOk := fun _ => false
  rootProbe := none
  aProbe := none
  bProbe := none
  mountOk := true
  renameOk := true
  umountOk := true
  osReleaseOk := true
  tmpdir := "/tmp/tmpval0001"

/-- Probe outputs of a device whose mounted root is partition A. -/
def wRootA : World :=
  { wBase with rootProbe := some "b300", aProbe := some "b300", bProbe := some "b301" }

/-- Print-command outputs reporting `bootcount=1` and `upgrade_available=1`
(the state right after a successful, uncommitted update boot). -/
def printUpdateDone : String → Option String := fun n =>
  if n == ENV_KEY_BOOTCOUNT then some "bootcount=1"
  else if n == ENV_KEY_UPGRADE then some "upgrade_available=1"
  else none

/-- Print-command outputs reporting `bootcount=0` and `upgrade_available=0`
(the state after a completed rollback). -/
def printRollbackDone : String → Option String := fun n =>
  if n == ENV_KEY_BOOTCOUNT then some "bootcount=0"
  else if n == ENV_KEY_UPGRADE then some "upgrade_available=0"
  else none

/-- A set command that fails exactly on `bootcount := "0"`. -/
def setOkNoBootcountReset : String → String → Bool := fun n v =>
  !(n == ENV_KEY_BOOTCOUNT && v == "0")

/-- A persisted state mid-sequence: both devices, both partition numbers, the
GRUB backend, the given step and expected root; the on-disk copy matches. -/
def psT (step : String) (expected : String) : PersistentState :=
  let st : List (String × Option String) :=
    [(SET_CMD_KEY, some SET_CMD_GRUB), (PRINT_CMD_KEY, some PRINT_CMD_GRUB),
     (ROOTFS_A_KEY, some "/dev/mmcblk0p2"), (ROOTFS_B_KEY, some "/dev/mmcblk0p3"),
     (PART_NUMBER_A_KEY, some "2"), (PART_NUMBER_B_KEY, some "3"),
     (VALIDATION_STEP_KEY, some step), (EXPECTED_ROOT_KEY, some expected)]
  ⟨[], st, some st⟩

/-- A persisted state carrying only a step value. -/
def psStep (s : String) : PersistentState :=
  ⟨[], [(VALIDATION_STEP_KEY, some s)], none⟩

/-- A print command that answers the bootcount query with fw_printenv's
bad-CRC warning (a single line containing no `=`), so the parsed dict has no
entry for the queried name. -/
def wBadCrc : World :=
  { wBase with printOut := fun n =>
      if n == ENV_KEY_BOOTCOUNT then some "Warning: bad CRC, using default environment"
      else none }

/-- Mounted root is A, environment reports a pending update confirmed
(`bootcount=1`, `upgrade_available=1`), every write succeeds. -/
def wUpdateOk : World := { wRootA with printOut := printUpdateDone }

/-- Like `wUpdateOk`, but resetting `bootcount` to `"0"` fails. -/
def wUpdateNoReset : World :=
  { wRootA with printOut := printUpdateDone, setOk := setOkNoBootcountReset }

/-- Mounted root is A, environment reports a completed rollback
(`upgrade_available=0`), every write succeeds. -/
def wRollbackOk : World := { wRootA with printOut := printRollbackDone }

/-- Like `wRollbackOk`, but resetting `bootcount` to `"0"` fails. -/
def wRollbackNoReset : World :=
  { wRootA with printOut := printRollbackDone, setOk := setOkNoBootcountReset }

/-- Mounted root is A and writing `bootcount := "0"` fails. -/
def wNoBootcountReset : World := { wRootA with setOk := setOkNoBootcountReset }

/-- Mounted root is A and mounting the inactive partition fails. -/
def wMountFail : World := { wRootA with mountOk := false }

/-- The observable outcome of running the script with world `wRootA` on a
persisted `test_switch` step whose expected root (B) does not match the
probed one (A). -/
def rSwitchFail : RunResult where
  ps := clean (set_expected_root (psT STEP_TEST_SWITCH CURRENT_ROOT_B) CURRENT_ROOT_B)
  rebooted := false
  serviceDisabled := true
  cleaned := true
  verdict := some "BOOTLOADER VALIDATION: FAILURE - switch test failed"
  fail_reason := some "switch test failed"
  advanced := false
  trace := [Act.setReasonA "switch test failed",
            Act.setEnvA ENV_KEY_BOOT_PART "3", Act.setEnvA ENV_KEY_BOOT_PART_HEX "3",
            Act.disableServiceA]

theorem getKV_setKV_self {α : Type} (l : List (String × α)) (k : String) (v : α) :
    getKV (setKV l k v) k = some v := by
  induction l with
  | nil => simp [setKV, getKV]
  | cons p rest ih =>
    obtain ⟨k2, v2⟩ := p
    by_cases h : k2 == k
    · simp [setKV, getKV, h]
    · simp [setKV, getKV, h, ih]

theorem getKV_setKV_ne {α : Type} (l : List (String × α)) (k k2 : String) (v : α)
    (h : k2 ≠ k) : getKV (setKV l k v) k2 = getKV l k2 := by
  induction l with
  | nil =>
    have : ¬(k = k2) := fun hh => h hh.symm
    simp [setKV, getKV, this]
  | cons p rest ih =>
    obtain ⟨k3, v3⟩ := p
    by_cases h3 : k3 == k
    · have : k ≠ k2 := fun hh => h hh.symm
      simp only [setKV, h3, if_pos, getKV]
      simp only [getKV, beq_iff_eq] at *
      simp [this, h3]
    · simp [setKV, getKV, h3, ih]

theorem getKV_eq_none_of_not_mem {α : Type} (l : List (String × α)) (k : String)
    (h : k ∉ l.map Prod.fst) : getKV l k = none := by
  induction l with
  | nil => rfl
  | cons p rest ih =>
    obtain ⟨k2, v2⟩ := p
    simp only [List.map_cons, List.mem_cons] at h
    push_neg at h
    have : ¬(k2 = k) := fun hh => h.1 hh.symm
    simp [getKV, beq_iff_eq, this, ih h.2]

theorem dict_update_cons {α : Type} (c : List (String × α)) (k : String) (v : α)
    (rest : List (String × α)) :
    dict_update c ((k, v) :: rest) = dict_update (setKV c k v) rest := rfl

theorem dict_update_getKV_none {α : Type} (c d : List (String × α)) (k : String)
    (h : getKV d k = none) : getKV (dict_update c d) k = getKV c k := by
  induction d generalizing c with
  | nil => rfl
  | cons p rest ih =>
    obtain ⟨k2, v2⟩ := p
    by_cases h2 : k2 == k
    · simp [getKV, h2] at h
    · rw [dict_update_cons, ih _ (by simpa [getKV, h2] using h),
        getKV_setKV_ne _ _ _ _ (by simpa using Ne.symm (of_decide_eq_false (by simpa using h2)))]

theorem dict_update_getKV_some {α : Type} (c d : List (String × α)) (k : String) (v : α)
    (hnd : (d.map Prod.fst).Nodup) (h : getKV d k = some v) :
    getKV (dict_update c d) k = some v := by
  induction d generalizing c with
  | nil => simp [getKV] at h
  | cons p rest ih =>
    obtain ⟨k2, v2⟩ := p
    simp only [List.map_cons, List.nodup_cons] at hnd
    by_cases h2 : k2 == k
    · have hk : k2 = k := by simpa using h2
      have hv : v2 = v := by simpa [getKV, h2] using h
      subst hk hv
      have hrest : getKV rest k2 = none :=
        getKV_eq_none_of_not_mem _ _ hnd.1
      rw [dict_update_cons, dict_update_getKV_none _ _ _ hrest, getKV_setKV_self]
    · rw [dict_update_cons]
      exact ih _ hnd.2 (by simpa [getKV, h2] using h)

theorem get_state_set_state_self (ps : PersistentState) (k : String) (v : Option String) :
    get_state (set_state ps k v) k = v := by
  simp [get_state, set_state, getKV_setKV_self]

theorem get_state_set_state_ne (ps : PersistentState) (k k2 : String) (v : Option String)
    (h : k2 ≠ k) : get_state (set_state ps k v) k2 = get_state ps k2 := by
  simp [get_state, set_state, getKV_setKV_ne _ _ _ _ h]

theorem get_step_set_step (ps : PersistentState) (s : String) :
    get_step (set_step ps s) = some s := by
  simp [get_step, set_step, get_state_set_state_self]

theorem eval_test_switch_inv {e : Option String} {c : String} {kg : Bool}
    {fr : Option String} {tr : List Act}
    (h : eval_test_switch e c = (kg, fr, tr)) : kg = true → fr = none := by
  unfold eval_test_switch at h
  split at h <;> simp_all [failStep]


theorem eval_test_update_inv {w : World} {e : Option String} {c : String} {kg : Bool}
    {fr : Option String} {tr : List Act}
    (h : eval_test_update w e c = .ok (kg, fr, tr)) : kg = true → fr = none := by
  unfold eval_test_update at h
  cases h1 : assert_env_variable w ENV_KEY_BOOTCOUNT "1" <;> rw [h1] at h
  · exact absurd h (by simp)
  case ok a1 =>
  cases h2 : assert_env_variable w ENV_KEY_UPGRADE "1" <;> rw [h2] at h
  · exact absurd h (by simp)
  case ok a2 =>
  cases hE : (e == some c) <;> cases a1 <;> cases a2 <;>
    cases hS1 : set_env_variable w ENV_KEY_BOOTCOUNT "0" <;>
    cases hS2 : set_env_variable w ENV_KEY_UPGRADE "0" <;>
    simp only [hE, hS1, hS2, failStep, if_true, if_false, Bool.false_eq_true] at h <;>
    simp_all

theorem eval_test_rollback_inv {w : World} {e : Option String} {c : String} {kg : Bool}
    {fr : Option String} {tr : List Act}
    (h : eval_test_rollback w e c = .ok (kg, fr, tr)) : kg = true → fr = none := by
  unfold eval_test_rollback at h
  cases h1 : assert_env_variable w ENV_KEY_UPGRADE "0" <;> rw [h1] at h
  · exact absurd h (by simp)
  case ok a1 =>
  cases hE : (e == some c) <;> cases a1 <;>
    cases hS1 : set_env_variable w ENV_KEY_BOOTCOUNT "0" <;>
    cases hS2 : set_env_variable w ENV_KEY_UPGRADE "0" <;>
    simp only [hE, hS1, hS2, failStep, if_true, if_false, Bool.false_eq_true] at h <;>
    simp_all


theorem prep_test_switch_inv {w : World} {ps : PersistentState} {kg : Bool}
    {fr : Option String} {c : String} {ps2 : PersistentState} {kg2 : Bool}
    {fr2 : Option String} {tr2 : List Act}
    (h : prep_test_switch w ps kg fr c = (ps2, kg2, fr2, tr2))
    (hin : kg = true → fr = none) : kg2 = true → fr2 = none := by
  unfold prep_test_switch at h
  cases hI : get_inactive_bootpart_info ps c <;> rw [hI] at h <;> dsimp only at h
  · intro hk
    simp at h
    simp_all
  case some info =>
    rcases hB : set_mender_bootpart w info.number with ⟨b, tb⟩
    rw [hB] at h
    cases b <;> dsimp only at h <;> simp_all

set_option maxHeartbeats 800000 in
theorem prep_test_update_inv {w : World} {ps : PersistentState} {kg : Bool}
    {fr : Option String} {c : String} {ps2 : PersistentState} {kg2 : Bool}
    {fr2 : Option String} {tr2 : List Act}
    (h : prep_test_update w ps kg fr c = (ps2, kg2, fr2, tr2))
    (hin : kg = true → fr = none) : kg2 = true → fr2 = none := by
  unfold prep_test_update at h
  cases hI : get_inactive_bootpart_info ps c <;> rw [hI] at h <;> dsimp only at h
  · cases kg <;>
      cases hS1 : set_env_variable w ENV_KEY_BOOTCOUNT "0" <;>
      cases hS2 : set_env_variable w ENV_KEY_UPGRADE "1" <;>
      simp only [hS1, hS2, failStep] at h <;>
      simp_all
  case some info =>
    rcases hB : set_mender_bootpart w info.number with ⟨b, tb⟩
    cases kg <;>
      cases hS1 : set_env_variable w ENV_KEY_BOOTCOUNT "0" <;>
      cases hS2 : set_env_variable w ENV_KEY_UPGRADE "1" <;>
      simp only [hS1, hS2, failStep] at h <;>
      rw [hB] at h <;> cases b <;> simp_all

set_option maxHeartbeats 1600000 in
theorem prep_test_rollback_inv {w : World} {ps : PersistentState} {kg : Bool}
    {fr : Option String} {c : String} {ps2 : PersistentState} {kg2 : Bool}
    {fr2 : Option String} {tr2 : List Act}
    (h : prep_test_rollback w ps kg fr c = (ps2, kg2, fr2, tr2))
    (hin : kg = true → fr = none) : kg2 = true → fr2 = none := by
  unfold prep_test_rollback at h
  cases hI : get_inactive_bootpart_info ps c <;> rw [hI] at h <;> dsimp only at h
  · simp_all
  case some info =>
    cases kg
    · simp_all
    · rcases hB : set_mender_bootpart w info.number with ⟨b, tb⟩
      cases hM : w.mountOk <;>
        cases hR : w.renameOk <;>
        cases hU : w.umountOk <;>
        cases hS1 : set_env_variable w ENV_KEY_BOOTCOUNT "0" <;>
        cases hS2 : set_env_variable w ENV_KEY_UPGRADE "1" <;>
        simp only [hM, hR, hU, hS1, hS2, failStep, Bool.not_true, Bool.not_false] at h <;>
        rw [hB] at h <;> cases b <;> simp_all

theorem first_stage_inv {w : World} {ps : PersistentState} {c : String}
    {ps1 : PersistentState} {kg1 : Bool} {fr1 : Option String} {tr1 : List Act}
    (h : first_stage w ps c = .ok (ps1, kg1, fr1, tr1)) : kg1 = true → fr1 = none := by
  unfold first_stage at h
  cases hS : get_step ps <;> rw [hS] at h <;> dsimp only at h
  · simp at h
    simp_all
  case some s =>
    by_cases c1 : s == STEP_TEST_SWITCH
    · simp only [c1, if_true] at h
      rcases hE : eval_test_switch (get_expected_root ps) c with ⟨kg', fr', tr'⟩
      rw [hE] at h
      simp at h
      obtain ⟨hps, hkg, hfr, htr⟩ := h
      subst hkg
      subst hfr
      exact eval_test_switch_inv hE
    · by_cases c2 : s == STEP_TEST_UPDATE
      · simp only [c1, c2, if_true, Bool.false_eq_true, if_false] at h
        cases hE : eval_test_update w (get_expected_root ps) c <;> rw [hE] at h <;>
          dsimp only at h
        · simp at h
        next x =>
          rcases x with ⟨kg', fr', tr'⟩
          simp at h
          obtain ⟨hps, hkg, hfr, htr⟩ := h
          subst hkg
          subst hfr
          exact eval_test_update_inv hE
      · by_cases c3 : s == STEP_TEST_ROLLBACK
        · simp only [c1, c2, c3, if_true, Bool.false_eq_true, if_false] at h
          cases hE : eval_test_rollback w (get_expected_root ps) c <;> rw [hE] at h <;>
            dsimp only at h
          · simp at h
          next x =>
            rcases x with ⟨kg', fr', tr'⟩
            simp at h
            obtain ⟨hps, hkg, hfr, htr⟩ := h
            subst hkg
            subst hfr
            exact eval_test_rollback_inv hE
        · simp only [c1, c2, c3, Bool.false_eq_true, if_false] at h
          simp at h
          simp_all

theorem second_stage_inv {w : World} {ps : PersistentState} {kg : Bool}
    {fr : Option String} {s : Option String} {c : String}
    {ps2 : PersistentState} {kg2 : Bool} {fr2 : Option String} {tr2 : List Act}
    (h : second_stage w ps kg fr s c = .ok (ps2, kg2, fr2, tr2))
    (hin : kg = true → fr = none) : kg2 = true → fr2 = none := by
  unfold second_stage at h
  by_cases c1 : s == some STEP_INIT
  · simp only [c1, if_true] at h
    cases hO : w.osReleaseOk
    · simp [hO] at h
    · simp [hO] at h
      simp_all
  · by_cases c2 : s == some STEP_TEST_SWITCH
    · simp only [c1, c2, if_true, Bool.false_eq_true, if_false] at h
      simp at h
      exact prep_test_switch_inv h hin
    · by_cases c3 : s == some STEP_TEST_UPDATE
      · simp only [c1, c2, c3, if_true, Bool.false_eq_true, if_false] at h
        simp at h
        exact prep_test_update_inv h hin
      · by_cases c4 : s == some STEP_TEST_ROLLBACK
        · simp only [c1, c2, c3, c4, if_true, Bool.false_eq_true, if_false] at h
          simp at h
          exact prep_test_rollback_inv h hin
        · by_cases c5 : s == some STEP_END
          · simp only [c1, c2, c3, c4, c5, if_true, Bool.false_eq_true, if_false] at h
            simp at h
            simp_all
          · simp only [c1, c2, c3, c4, c5, Bool.false_eq_true, if_false] at h
            simp at h
            simp_all

/-- Claim C1, counterexample: with `RootfsPartA = /dev/mmcblk0p2` in the
first-read config file and `RootfsPartA = /dev/mmcblk0p3` in the later one,
the merged configuration holds the later source's value — the key does not
keep its first-read value, so the merge policy is not first-read-wins. -/
theorem config_first_read_value_lost :
    getKV (load_config (some [(ROOTFS_A_KEY, "/dev/mmcblk0p2")])
        (some [(ROOTFS_A_KEY, "/dev/mmcblk0p3")])) ROOTFS_A_KEY
      = some "/dev/mmcblk0p3" := rfl

/-- Claim C1, amended: the merge implemented by the two `read_file_int`
calls (`dict.update`) is last-read-wins — a key defined by the later source
takes the later source's value, and a key the later source does not define
keeps whatever the first source gave it. -/
theorem config_merge_last_read_wins (c1 c2 : List (String × String))
    (k k2 : String) (v : String)
    (hnd : (c2.map Prod.fst).Nodup)
    (h2 : getKV c2 k = some v) (h0 : getKV c2 k2 = none) :
    getKV (load_config (some c1) (some c2)) k = some v
  ∧ getKV (load_config (some c1) (some c2)) k2
      = getKV (load_config (some c1) none) k2 := by
  constructor
  · simp only [load_config, read_file_int]
    exact dict_update_getKV_some _ _ _ _ hnd h2
  · simp only [load_config, read_file_int]
    exact dict_update_getKV_none _ _ _ h0

/-- Witness for the amended C1 at a concrete pair of config files. -/
theorem config_merge_last_read_wins_witness :
    getKV (load_config (some [(ROOTFS_A_KEY, "/dev/sda2"), (ROOTFS_B_KEY, "/dev/sda3")])
        (some [(ROOTFS_A_KEY, "/dev/mmcblk0p2")])) ROOTFS_A_KEY = some "/dev/mmcblk0p2"
  ∧ getKV (load_config (some [(ROOTFS_A_KEY, "/dev/sda2"), (ROOTFS_B_KEY, "/dev/sda3")])
        (some [(ROOTFS_A_KEY, "/dev/mmcblk0p2")])) ROOTFS_B_KEY
      = getKV (load_config (some [(ROOTFS_A_KEY, "/dev/sda2"), (ROOTFS_B_KEY, "/dev/sda3")]) none)
          ROOTFS_B_KEY :=
  config_merge_last_read_wins _ _ ROOTFS_A_KEY ROOTFS_B_KEY _ (by decide) rfl rfl

/-- Claim C2: when both the probe of `/` and the probe of the configured
partition A fail (`run_command_get_output` returns `None` for both),
`identify_mounted_root` compares `None == None`, which holds, and reports
`root_a` — a false positive instead of the `root_undefined` the claim (and
the spec's "never a false positive") requires. -/
theorem identify_root_false_positive_on_probe_failure :
    wBase.rootProbe = none ∧ wBase.aProbe = none
  ∧ identify_mounted_root wBase = CURRENT_ROOT_A := ⟨rfl, rfl, rfl⟩

/-- Claim C3: when the print command succeeds but its output parses to a
dict that lacks the requested name (here fw_printenv's bad-CRC warning
line), `assert_env_variable` indexes the dict with `vdict[variable_name]`
and raises `KeyError` instead of returning false — contradicting the claim
that the false result is produced without raising. -/
theorem assert_env_raises_when_name_absent :
    wBadCrc.printOut ENV_KEY_BOOTCOUNT = some "Warning: bad CRC, using default environment"
  ∧ parseEnvOutput "Warning: bad CRC, using default environment" = []
  ∧ assert_env_variable wBadCrc ENV_KEY_BOOTCOUNT "1" = .error () := ⟨rfl, rfl, rfl⟩

/-- Claim C5: `next_step` maps each step to its unique successor in the
order none, init, test_switch, test_update, test_rollback, end; it both
persists and returns that successor; from `end` it leaves the step
unchanged; and any value outside the enumeration (including a missing step)
raises instead of being coerced. -/
theorem next_step_follows_enumeration (ps : PersistentState) :
    (get_step ps = some STEP_NONE →
      next_step ps = .ok (set_step ps STEP_INIT, some STEP_INIT))
  ∧ (get_step ps = some STEP_INIT →
      next_step ps = .ok (set_step ps STEP_TEST_SWITCH, some STEP_TEST_SWITCH))
  ∧ (get_step ps = some STEP_TEST_SWITCH →
      next_step ps = .ok (set_step ps STEP_TEST_UPDATE, some STEP_TEST_UPDATE))
  ∧ (get_step ps = some STEP_TEST_UPDATE →
      next_step ps = .ok (set_step ps STEP_TEST_ROLLBACK, some STEP_TEST_ROLLBACK))
  ∧ (get_step ps = some STEP_TEST_ROLLBACK →
      next_step ps = .ok (set_step ps STEP_END, some STEP_END))
  ∧ (∀ s2, get_step (set_step ps s2) = some s2)
  ∧ (get_step ps = some STEP_END → next_step ps = .ok (ps, some STEP_END))
  ∧ (∀ s, get_step ps = some s →
      s ∉ [STEP_NONE, STEP_INIT, STEP_TEST_SWITCH, STEP_TEST_UPDATE,
           STEP_TEST_ROLLBACK, STEP_END] →
      next_step ps = .error ())
  ∧ (get_step ps = none → next_step ps = .error ()) := by
  refine ⟨?_, ?_, ?_, ?_, ?_, ?_, ?_, ?_, ?_⟩
  · intro h
    simp only [next_step, h, get_step_set_step]
    rfl
  · intro h
    simp only [next_step, h, get_step_set_step]
    rfl
  · intro h
    simp only [next_step, h, get_step_set_step]
    rfl
  · intro h
    simp only [next_step, h, get_step_set_step]
    rfl
  · intro h
    simp only [next_step, h, get_step_set_step]
    rfl
  · intro s2
    exact get_step_set_step ps s2
  · intro h
    simp only [next_step, h]
    rfl
  · intro s h hmem
    simp only [List.mem_cons, List.mem_singleton, not_or] at hmem
    obtain ⟨n1, n2, n3, n4, n5, n6⟩ := hmem
    simp only [next_step, h, beq_iff_eq, Option.some.injEq, n1, n2, n3, n4, n5, n6,
      if_false]
  · intro h
    simp only [next_step, h]
    rfl

/-- Witness for C5: from a persisted step `none`, `next_step` persists and
returns `init`. -/
theorem next_step_follows_enumeration_witness :
    next_step (psStep STEP_NONE) = .ok (set_step (psStep STEP_NONE) STEP_INIT, some STEP_INIT) :=
  (next_step_follows_enumeration (psStep STEP_NONE)).1 rfl

/-- Claim C9: every mutation of the persistent record — `_set_state` itself,
the `set_expected_root` and `_set_step` wrappers, and every step change made
by `next_step` — leaves the on-disk file equal to the full in-memory record,
because `_set_state` rewrites the whole record before returning. -/
theorem state_mutations_write_through :
    (∀ ps k v, (set_state ps k v).disk = some (set_state ps k v).state)
  ∧ (∀ ps v, (set_expected_root ps v).disk = some (set_expected_root ps v).state)
  ∧ (∀ ps s2, (set_step ps s2).disk = some (set_step ps s2).state)
  ∧ (∀ ps ps2 s2, next_step ps = .ok (ps2, s2) → get_step ps ≠ some STEP_END →
      ps2.disk = some ps2.state) := by
  refine ⟨fun ps k v => rfl, fun ps v => rfl, fun ps s2 => rfl, ?_⟩
  intro ps ps2 s2 h hend
  unfold next_step at h
  by_cases c1 : get_step ps == some STEP_NONE
  · simp only [c1, if_true] at h
    simp at h
    rw [← h.1]
    rfl
  · by_cases c2 : get_step ps == some STEP_INIT
    · simp only [c1, c2, if_true, Bool.false_eq_true, if_false] at h
      simp at h
      rw [← h.1]
      rfl
    · by_cases c3 : get_step ps == some STEP_TEST_SWITCH
      · simp only [c1, c2, c3, if_true, Bool.false_eq_true, if_false] at h
        simp at h
        rw [← h.1]
        rfl
      · by_cases c4 : get_step ps == some STEP_TEST_UPDATE
        · simp only [c1, c2, c3, c4, if_true, Bool.false_eq_true, if_false] at h
          simp at h
          rw [← h.1]
          rfl
        · by_cases c5 : get_step ps == some STEP_TEST_ROLLBACK
          · simp only [c1, c2, c3, c4, c5, if_true, Bool.false_eq_true, if_false] at h
            simp at h
            rw [← h.1]
            rfl
          · by_cases c6 : get_step ps == some STEP_END
            · exact absurd (by simpa using c6) hend
            · simp only [c1, c2, c3, c4, c5, c6, Bool.false_eq_true, if_false] at h
              simp at h

/-- Witness for C9: a concrete `_set_state` call and the state change made
by `next_step` from step `none` both leave disk equal to memory. -/
theorem state_mutations_write_through_witness :
    (set_state (psStep STEP_NONE) EXPECTED_ROOT_KEY (some CURRENT_ROOT_B)).disk
      = some (set_state (psStep STEP_NONE) EXPECTED_ROOT_KEY (some CURRENT_ROOT_B)).state
  ∧ (set_step (psStep STEP_NONE) STEP_INIT).disk
      = some (set_step (psStep STEP_NONE) STEP_INIT).state :=
  ⟨state_mutations_write_through.1 _ _ _,
   state_mutations_write_through.2.2.2 (psStep STEP_NONE)
     (set_step (psStep STEP_NONE) STEP_INIT) (some STEP_INIT) rfl (by decide)⟩

/-- Claim C6, counterexample: current root equals the expected root and both
`bootcount` and `upgrade_available` read `"1"`, yet `test_update` evaluation
fails, because the cleanup write `bootcount := "0"` fails — so "succeeds iff
the three checks hold" is false on the code. -/
theorem update_eval_fails_despite_checks :
    assert_env_variable wUpdateNoReset ENV_KEY_BOOTCOUNT "1" = .ok true
  ∧ assert_env_variable wUpdateNoReset ENV_KEY_UPGRADE "1" = .ok true
  ∧ (some CURRENT_ROOT_A == some CURRENT_ROOT_A) = true
  ∧ eval_test_update wUpdateNoReset (some CURRENT_ROOT_A) CURRENT_ROOT_A
      = .ok (false, some "failed to set bootcount",
             [Act.setEnvA ENV_KEY_BOOTCOUNT "0",
              Act.setReasonA "failed to set bootcount"]) :=
  ⟨rfl, rfl, rfl, rfl⟩

set_option maxHeartbeats 1600000 in
/-- Claim C6, amended: `test_update` evaluation succeeds iff the current
root equals `expectedRoot`, both variables read `"1"`, and additionally both
cleanup writes succeed; the cleanup writes are issued only when the three
checks pass (and the `upgrade_available` reset only after the `bootcount`
reset succeeded), and on success both variables have been written to `"0"`. -/
theorem update_eval_characterization (w : World) (expected : Option String)
    (current_root : String) (kg : Bool) (fr : Option String) (tr : List Act)
    (h : eval_test_update w expected current_root = .ok (kg, fr, tr)) :
    (kg = true ↔ (expected == some current_root) = true
        ∧ assert_env_variable w ENV_KEY_BOOTCOUNT "1" = .ok true
        ∧ assert_env_variable w ENV_KEY_UPGRADE "1" = .ok true
        ∧ set_env_variable w ENV_KEY_BOOTCOUNT "0" = true
        ∧ set_env_variable w ENV_KEY_UPGRADE "0" = true)
  ∧ (kg = true → fr = none
        ∧ Act.setEnvA ENV_KEY_BOOTCOUNT "0" ∈ tr ∧ Act.setEnvA ENV_KEY_UPGRADE "0" ∈ tr)
  ∧ (((expected == some current_root) = false
        ∨ assert_env_variable w ENV_KEY_BOOTCOUNT "1" = .ok false
        ∨ assert_env_variable w ENV_KEY_UPGRADE "1" = .ok false)
      → ∀ n v2, Act.setEnvA n v2 ∉ tr) := by
  unfold eval_test_update at h
  cases h1 : assert_env_variable w ENV_KEY_BOOTCOUNT "1" <;> rw [h1] at h
  · exact absurd h (by simp)
  next a1 =>
  cases h2 : assert_env_variable w ENV_KEY_UPGRADE "1" <;> rw [h2] at h
  · exact absurd h (by simp)
  next a2 =>
  cases hE : (expected == some current_root) <;> cases a1 <;> cases a2 <;>
    cases hS1 : set_env_variable w ENV_KEY_BOOTCOUNT "0" <;>
    cases hS2 : set_env_variable w ENV_KEY_UPGRADE "0" <;>
    simp only [hE, hS1, hS2, failStep, if_true, if_false, Bool.false_eq_true] at h <;>
    (rcases h with ⟨rfl, rfl, rfl⟩; simp_all)

/-- Witness for the amended C6: with every check passing and every write
succeeding, evaluation succeeds and both cleanup writes appear in the
trace. -/
theorem update_eval_characterization_witness :
    Act.setEnvA ENV_KEY_BOOTCOUNT "0" ∈
      [Act.setEnvA ENV_KEY_BOOTCOUNT "0", Act.setEnvA ENV_KEY_UPGRADE "0"]
  ∧ Act.setEnvA ENV_KEY_UPGRADE "0" ∈
      [Act.setEnvA ENV_KEY_BOOTCOUNT "0", Act.setEnvA ENV_KEY_UPGRADE "0"] :=
  ((update_eval_characterization wUpdateOk (some CURRENT_ROOT_A) CURRENT_ROOT_A
      true none
      [Act.setEnvA ENV_KEY_BOOTCOUNT "0", Act.setEnvA ENV_KEY_UPGRADE "0"] rfl).2.1 rfl).2

/-- Claim C7, counterexample: `upgrade_available` reads `"0"` and the
current root equals the recorded expected root, yet `test_rollback`
evaluation fails, because the cleanup write `bootcount := "0"` fails — so
"succeeds iff the two checks hold" is false on the code. -/
theorem rollback_eval_fails_despite_checks :
    assert_env_variable wRollbackNoReset ENV_KEY_UPGRADE "0" = .ok true
  ∧ (some CURRENT_ROOT_A == some CURRENT_ROOT_A) = true
  ∧ eval_test_rollback wRollbackNoReset (some CURRENT_ROOT_A) CURRENT_ROOT_A
      = .ok (false, some "failed to set bootcount",
             [Act.setEnvA ENV_KEY_BOOTCOUNT "0",
              Act.setReasonA "failed to set bootcount"]) :=
  ⟨rfl, rfl, rfl⟩

set_option maxHeartbeats 1600000 in
/-- Claim C7, amended: `test_rollback` evaluation succeeds iff
`upgrade_available` reads `"0"`, the current root equals the recorded
(originally active) `expectedRoot`, and additionally both cleanup writes
succeed; on success `bootcount` and `upgrade_available` have both been
written to `"0"`, and no write is issued when a check fails. -/
theorem rollback_eval_characterization (w : World) (expected : Option String)
    (current_root : String) (kg : Bool) (fr : Option String) (tr : List Act)
    (h : eval_test_rollback w expected current_root = .ok (kg, fr, tr)) :
    (kg = true ↔ assert_env_variable w ENV_KEY_UPGRADE "0" = .ok true
        ∧ (expected == some current_root) = true
        ∧ set_env_variable w ENV_KEY_BOOTCOUNT "0" = true
        ∧ set_env_variable w ENV_KEY_UPGRADE "0" = true)
  ∧ (kg = true → fr = none
        ∧ Act.setEnvA ENV_KEY_BOOTCOUNT "0" ∈ tr ∧ Act.setEnvA ENV_KEY_UPGRADE "0" ∈ tr)
  ∧ ((assert_env_variable w ENV_KEY_UPGRADE "0" = .ok false
        ∨ (expected == some current_root) = false)
      → ∀ n v2, Act.setEnvA n v2 ∉ tr) := by
  unfold eval_test_rollback at h
  cases h1 : assert_env_variable w ENV_KEY_UPGRADE "0" <;> rw [h1] at h
  · exact absurd h (by simp)
  next a1 =>
  cases hE : (expected == some current_root) <;> cases a1 <;>
    cases hS1 : set_env_variable w ENV_KEY_BOOTCOUNT "0" <;>
    cases hS2 : set_env_variable w ENV_KEY_UPGRADE "0" <;>
    simp only [hE, hS1, hS2, failStep, if_true, if_false, Bool.false_eq_true] at h <;>
    (rcases h with ⟨rfl, rfl, rfl⟩; simp_all)

/-- Witness for the amended C7: with both checks passing and every write
succeeding, evaluation succeeds and both cleanup writes appear in the
trace. -/
theorem rollback_eval_characterization_witness :
    Act.setEnvA ENV_KEY_BOOTCOUNT "0" ∈
      [Act.setEnvA ENV_KEY_BOOTCOUNT "0", Act.setEnvA ENV_KEY_UPGRADE "0"]
  ∧ Act.setEnvA ENV_KEY_UPGRADE "0" ∈
      [Act.setEnvA ENV_KEY_BOOTCOUNT "0", Act.setEnvA ENV_KEY_UPGRADE "0"] :=
  ((rollback_eval_characterization wRollbackOk (some CURRENT_ROOT_A) CURRENT_ROOT_A
      true none
      [Act.setEnvA ENV_KEY_BOOTCOUNT "0", Act.setEnvA ENV_KEY_UPGRADE "0"] rfl).2.1 rfl).2

/-- Claim C8: during `test_rollback` preparation, if mounting the inactive
partition fails, the run stops there — the recorded reason is exactly the
mount message (naming the mount step), the persistent state is untouched,
and no rename, unmount, environment write or boot-partition selection is
issued. -/
theorem rollback_prep_mount_short_circuit (w : World) (ps : PersistentState)
    (fr : Option String) (current_root : String) (info : InactiveInfo)
    (hI : get_inactive_bootpart_info ps current_root = some info)
    (hM : w.mountOk = false) :
    prep_test_rollback w ps true fr current_root
      = (ps, false,
         some ("failed to mount " ++ pyShow info.device ++ " to " ++ w.tmpdir ++ ", aborting"),
         [Act.mountA info.device,
          Act.setReasonA
            ("failed to mount " ++ pyShow info.device ++ " to " ++ w.tmpdir ++ ", aborting")])
  ∧ Act.renameA ∉ (prep_test_rollback w ps true fr current_root).2.2.2
  ∧ Act.umountA ∉ (prep_test_rollback w ps true fr current_root).2.2.2
  ∧ (∀ n v, Act.setEnvA n v ∉ (prep_test_rollback w ps true fr current_root).2.2.2)
  ∧ (prep_test_rollback w ps true fr current_root).1 = ps := by
  have hEq : prep_test_rollback w ps true fr current_root
      = (ps, false,
         some ("failed to mount " ++ pyShow info.device ++ " to " ++ w.tmpdir ++ ", aborting"),
         [Act.mountA info.device,
          Act.setReasonA
            ("failed to mount " ++ pyShow info.device ++ " to " ++ w.tmpdir ++ ", aborting")]) := by
    unfold prep_test_rollback
    rw [hI]
    simp [hM]
  refine ⟨hEq, ?_, ?_, ?_, ?_⟩ <;> rw [hEq] <;> simp

/-- Witness for C8 at a concrete state and world whose mount fails. -/
theorem rollback_prep_mount_short_circuit_witness :
    prep_test_rollback wMountFail (psT STEP_TEST_ROLLBACK CURRENT_ROOT_A) true none CURRENT_ROOT_A
      = (psT STEP_TEST_ROLLBACK CURRENT_ROOT_A, false,
         some ("failed to mount " ++ pyShow (some "/dev/mmcblk0p3") ++ " to "
               ++ wMountFail.tmpdir ++ ", aborting"),
         [Act.mountA (some "/dev/mmcblk0p3"),
          Act.setReasonA ("failed to mount " ++ pyShow (some "/dev/mmcblk0p3") ++ " to "
               ++ wMountFail.tmpdir ++ ", aborting")]) :=
  (rollback_prep_mount_short_circuit wMountFail (psT STEP_TEST_ROLLBACK CURRENT_ROOT_A)
    none CURRENT_ROOT_A ⟨some "3", some "/dev/mmcblk0p3", CURRENT_ROOT_B⟩ rfl rfl).1

/-- Claim C10: in `test_update` preparation starting from a live run
(`keep_going` true, no reason yet), a failing initial environment write
first records the literal, non-interpolated reason text (the source lines
lack the f-string prefix), and the combined `keep_going and inactive`
test then routes the run into the `else` branch, overwriting the reason
with the partition-identification message — the final reason does not name
the write that failed. -/
theorem update_prep_reason_not_interpolated_then_overwritten
    (w : World) (ps : PersistentState) (current_root : String) :
    (set_env_variable w ENV_KEY_BOOTCOUNT "0" = false →
      prep_test_update w ps true none current_root
        = (ps, false, some "could not identify partition numbers for update, aborting",
           [Act.setEnvA ENV_KEY_BOOTCOUNT "0",
            Act.setReasonA "failed to set \x7bENV_KEY_BOOTCOUNT\x7d",
            Act.setReasonA "could not identify partition numbers for update, aborting"]))
  ∧ (set_env_variable w ENV_KEY_BOOTCOUNT "0" = true →
     set_env_variable w ENV_KEY_UPGRADE "1" = false →
      prep_test_update w ps true none current_root
        = (ps, false, some "could not identify partition numbers for update, aborting",
           [Act.setEnvA ENV_KEY_BOOTCOUNT "0", Act.setEnvA ENV_KEY_UPGRADE "1",
            Act.setReasonA "failed to set \x7bENV_KEY_UPGRADE\x7d",
            Act.setReasonA "could not identify partition numbers for update, aborting"])) := by
  constructor
  · intro h1
    unfold prep_test_update
    cases hI : get_inactive_bootpart_info ps current_root <;> simp [hI, h1, failStep]
  · intro h1 h2
    unfold prep_test_update
    cases hI : get_inactive_bootpart_info ps current_root <;> simp [hI, h1, h2, failStep]

/-- Witness for C10: a concrete world whose `bootcount := "0"` write fails. -/
theorem update_prep_reason_not_interpolated_then_overwritten_witness :
    prep_test_update wNoBootcountReset (psT STEP_TEST_UPDATE CURRENT_ROOT_A) true none
        CURRENT_ROOT_A
      = (psT STEP_TEST_UPDATE CURRENT_ROOT_A, false,
         some "could not identify partition numbers for update, aborting",
         [Act.setEnvA ENV_KEY_BOOTCOUNT "0",
          Act.setReasonA "failed to set \x7bENV_KEY_BOOTCOUNT\x7d",
          Act.setReasonA "could not identify partition numbers for update, aborting"]) :=
  (update_prep_reason_not_interpolated_then_overwritten wNoBootcountReset
    (psT STEP_TEST_UPDATE CURRENT_ROOT_A) CURRENT_ROOT_A).1 rfl

/-- Claim C4, counterexample.  First scenario: a `test_update` evaluation
failure ("update test did not match expected root") is recorded, yet the
finalized verdict carries a different reason, because the preparation stage
still runs on the old step and its `else` branch overwrites the reason — so
"logs the final verdict FAILURE with that reason" is false.  Second
scenario: a failure reason recorded during preparation comes after the step
was already advanced (`advanced = true`), so "performs no step advance" is
false for preparation failures. -/
theorem run_verdict_reason_overwritten :
    (run_script wUpdateOk (psT STEP_TEST_UPDATE CURRENT_ROOT_B)).map
        (fun r => (r.verdict, r.fail_reason, r.advanced,
          r.trace.contains
            (Act.setReasonA ("update test did not match expected root: " ++ CURRENT_ROOT_B))))
      = .ok (some "BOOTLOADER VALIDATION: FAILURE - could not identify partition numbers for update, aborting",
             some "could not identify partition numbers for update, aborting", false, true)
  ∧ (run_script wNoBootcountReset (psT STEP_TEST_SWITCH CURRENT_ROOT_A)).map
        (fun r => (r.advanced, r.fail_reason))
      = .ok (true, some "could not identify partition numbers for update, aborting") :=
  ⟨rfl, rfl⟩

/-- Claim C4, amended: whenever a run ends with a recorded failure reason it
does not reboot; it disables the re-invocation service, deletes the state
file and logs `FAILURE` with the *last* recorded reason (which, because the
preparation stage still runs on the old step after an evaluation failure,
may have overwritten the reason evaluation recorded); an evaluation failure
prevents the step advance, while a preparation failure happens after the
advance; and a non-rebooting run with no recorded reason logs `SUCCESS`. -/
theorem run_failure_finalizes (w : World) (ps : PersistentState) (r : RunResult)
    (h : run_script w ps = .ok r) :
    (∀ reason, r.fail_reason = some reason →
        r.rebooted = false ∧ r.serviceDisabled = true ∧ r.cleaned = true
        ∧ r.verdict = some ("BOOTLOADER VALIDATION: FAILURE - " ++ reason))
  ∧ (∀ ps1 kg1 fr1 tr1 reason,
        first_stage w ps (identify_mounted_root w) = .ok (ps1, kg1, fr1, tr1) →
        fr1 = some reason → r.advanced = false)
  ∧ (r.fail_reason = none → r.rebooted = false →
        r.verdict = some "BOOTLOADER VALIDATION: SUCCESS") := by
  simp only [run_script] at h
  cases h1 : first_stage w ps (identify_mounted_root w) <;> rw [h1] at h <;> dsimp only at h
  · exact absurd h (by simp)
  next q1 =>
  obtain ⟨ps1, kg1, fr1, tr1⟩ := q1
  have inv1 := first_stage_inv h1
  cases kg1
  case false =>
    simp only [Bool.false_eq_true, reduceIte] at h
    cases h2 : second_stage w ps1 false fr1 (get_step ps) (identify_mounted_root w) <;>
      rw [h2] at h <;> dsimp only at h
    · exact absurd h (by simp)
    next q2 =>
    obtain ⟨ps3, kg3, fr3, tr3⟩ := q2
    have inv2 := second_stage_inv h2 (fun hh => absurd hh (by simp))
    cases kg3
    case false =>
      simp only [Bool.false_eq_true, reduceIte, Except.ok.injEq] at h
      subst h
      refine ⟨?_, ?_, ?_⟩
      · intro reason hr
        simp only at hr
        refine ⟨rfl, rfl, rfl, ?_⟩
        simp only [hr]
      · intro ps1' kg1' fr1' tr1' reason h1' hfr'
        rfl
      · intro hr hrb
        simp only at hr
        simp only [hr]
    case true =>
      simp only [reduceIte, Except.ok.injEq] at h
      subst h
      have hfr3 : fr3 = none := inv2 rfl
      refine ⟨?_, ?_, ?_⟩
      · intro reason hr
        simp only [hfr3] at hr
        exact absurd hr (by simp)
      · intro ps1' kg1' fr1' tr1' reason h1' hfr'
        rfl
      · intro hr hrb
        exact absurd hrb (by simp)
  case true =>
    simp only [reduceIte] at h
    cases hnx : next_step ps1 <;> rw [hnx] at h <;> dsimp only at h
    · exact absurd h (by simp)
    next q2 =>
    obtain ⟨ps2, s2⟩ := q2
    cases h2 : second_stage w ps2 true fr1 s2 (identify_mounted_root w) <;>
      rw [h2] at h <;> dsimp only at h
    · exact absurd h (by simp)
    next q3 =>
    obtain ⟨ps3, kg3, fr3, tr3⟩ := q3
    have inv2 := second_stage_inv h2 inv1
    cases kg3
    case false =>
      simp only [Bool.false_eq_true, reduceIte, Except.ok.injEq] at h
      subst h
      refine ⟨?_, ?_, ?_⟩
      · intro reason hr
        simp only at hr
        refine ⟨rfl, rfl, rfl, ?_⟩
        simp only [hr]
      · intro ps1' kg1' fr1' tr1' reason h1' hfr'
        rcases h1' with ⟨rfl, rfl, rfl, rfl⟩
        rw [inv1 rfl] at hfr'
        simp at hfr'
      · intro hr hrb
        simp only at hr
        simp only [hr]
    case true =>
      simp only [reduceIte, Except.ok.injEq] at h
      subst h
      have hfr3 : fr3 = none := inv2 rfl
      refine ⟨?_, ?_, ?_⟩
      · intro reason hr
        simp only [hfr3] at hr
        exact absurd hr (by simp)
      · intro ps1' kg1' fr1' tr1' reason h1' hfr'
        rcases h1' with ⟨rfl, rfl, rfl, rfl⟩
        rw [inv1 rfl] at hfr'
        simp at hfr'
      · intro hr hrb
        exact absurd hrb (by simp)

/-- Witness for the amended C4: a failed switch evaluation finalizes with
`FAILURE - switch test failed`, without rebooting and without advancing. -/
theorem run_failure_finalizes_witness :
    rSwitchFail.rebooted = false ∧ rSwitchFail.serviceDisabled = true
  ∧ rSwitchFail.cleaned = true
  ∧ rSwitchFail.verdict = some ("BOOTLOADER VALIDATION: FAILURE - " ++ "switch test failed")
  ∧ rSwitchFail.advanced = false :=
  have happ := run_failure_finalizes wRootA (psT STEP_TEST_SWITCH CURRENT_ROOT_B) rSwitchFail rfl
  ⟨(happ.1 "switch test failed" rfl).1, (happ.1 "switch test failed" rfl).2.1,
   (happ.1 "switch test failed" rfl).2.2.1, (happ.1 "switch test failed" rfl).2.2.2,
   happ.2.1 (psT STEP_TEST_SWITCH CURRENT_ROOT_B) false (some "switch test failed")
     [Act.setReasonA "switch test failed"] "switch test failed" rfl rfl⟩
